import Mathlib

/-!
# Scene graph and multi-pass drawing of the RTR viewer (`scene.cpp`)

A shallow embedding of `Scene` from `src/scene.cpp`.

* Objects held through `shared_ptr` live in heaps (`nodeHeap`, `meshHeap`,
  `materialHeap`); a pointer is an index into its heap, so two pointers are the
  same object exactly when the indices are equal.
* The `std::map` members are association lists kept in ascending key order, so
  that `begin()` is the head of the list.  Only non-null entries are stored: a
  key without an entry stands for the null pointer `operator[]` would yield.
* An operation that would dereference a null pointer, index a light array out
  of range, write a member that the object pointed to does not have, or fail an
  `assert` returns `none`.
* `float` values are modelled as rationals.
* `parent_->update()` is counted in `updateRequests`; a call of `Node::draw` on
  the world node is recorded in `drawLog` with the raster state it is issued
  under.
-/

namespace RTR

/-! ## Vectors and matrices (Qt value types) -/

abbrev Scalar := ℚ

structure QVector3D where
  x : Scalar
  y : Scalar
  z : Scalar
deriving DecidableEq

/-- Product of a vector with a factor, `QVector3D * float`. -/
def QVector3D.scaled (v : QVector3D) (f : Scalar) : QVector3D :=
  ⟨v.x * f, v.y * f, v.z * f⟩

/-- A 4x4 matrix, entry `m r c` in row `r` and column `c`. -/
@[ext]
structure QMatrix4x4 where
  m : Fin 4 → Fin 4 → Scalar

namespace QMatrix4x4

/-- The default constructed matrix. -/
def identity : QMatrix4x4 := ⟨fun r c => if r = c then 1 else 0⟩

/-- Matrix product, `operator*`. -/
def mul (a b : QMatrix4x4) : QMatrix4x4 :=
  ⟨fun r c => a.m r 0 * b.m 0 c + a.m r 1 * b.m 1 c + a.m r 2 * b.m 2 c + a.m r 3 * b.m 3 c⟩

/-- The matrix that translates by `v`. -/
def translation (v : QVector3D) : QMatrix4x4 :=
  ⟨fun r c =>
    if c = 3 then (if r = 0 then v.x else if r = 1 then v.y else if r = 2 then v.z else 1)
    else if r = c then 1 else 0⟩

/-- The matrix that scales by the components of `v`. -/
def scaling (v : QVector3D) : QMatrix4x4 :=
  ⟨fun r c =>
    if r = c then (if r = 0 then v.x else if r = 1 then v.y else if r = 2 then v.z else 1)
    else 0⟩

/-- Multiplies this matrix by the translation by `v`: `QMatrix4x4::translate`. -/
def translate (a : QMatrix4x4) (v : QVector3D) : QMatrix4x4 := a.mul (translation v)

/-- Multiplies this matrix by the scaling by `v`: `QMatrix4x4::scale`. -/
def scale (a : QMatrix4x4) (v : QVector3D) : QMatrix4x4 := a.mul (scaling v)

/-- Transforms a point, `QMatrix4x4 * QVector3D`: the point is extended by
`w = 1` and the result is divided by its `w` unless that is `1`. -/
def map (a : QMatrix4x4) (v : QVector3D) : QVector3D :=
  let x := v.x * a.m 0 0 + v.y * a.m 0 1 + v.z * a.m 0 2 + a.m 0 3
  let y := v.x * a.m 1 0 + v.y * a.m 1 1 + v.z * a.m 1 2 + a.m 1 3
  let z := v.x * a.m 2 0 + v.y * a.m 2 1 + v.z * a.m 2 2 + a.m 2 3
  let w := v.x * a.m 3 0 + v.y * a.m 3 1 + v.z * a.m 3 2 + a.m 3 3
  if w = 1 then ⟨x, y, z⟩ else ⟨x / w, y / w, z / w⟩

end QMatrix4x4

/-! ## Materials, meshes, nodes -/

/-- One entry of a material's light array. -/
structure PointLight where
  position_WC : QVector3D
  color : QVector3D
  intensity : Scalar

/-- The `phong` parameter struct of `PhongMaterial`. -/
structure Phong where
  k_diffuse : QVector3D
  k_ambient : QVector3D
  shininess : Scalar

/-- The `toonShader` parameter struct, `ToonMaterial::ToonShader` in `material/toon.h`. -/
structure ToonShader where
  toon : Bool
  silhoutte : Bool
  threshold : Scalar
  discretize : Int

/-- The `texture` struct of `ToonMaterial`, `ToonMaterial::Texture` in
`material/toon.h`. -/
structure ToonTexture where
  density : Int
  radius : Scalar
  circleColor : QVector3D
  backgroundColor : QVector3D

/-- The members that `ToonMaterial` declares on top of `PhongMaterial`
(`material/toon.h`). -/
structure ToonMembers where
  toonShader : ToonShader
  texture : ToonTexture

/-- Modelled from the spec: the `texture` parameter struct of `PointMaterial`,
whose header `point.h` is not part of the sources: density, radius, circle and
background colour, and the discard flag that `revertPoint` writes.  `density`
is given the type of the argument of `setDensity`. -/
structure Texture where
  density : Scalar
  radius : Scalar
  circleColor : QVector3D
  backgroundColor : QVector3D
  shouldDiscard : Bool

/-- The material classes that `makeNodes` instantiates. -/
inductive MaterialClass where
  | PhongMaterial | ToonMaterial | PointMaterial
deriving DecidableEq

/-- Modelled from the spec: the base classes (`material.h`, `phong.h`) and
`point.h` are not part of the sources.  Following the data model of the spec, a
material carries a per-light array of light parameters, the animation time and
the Phong parameters; `appliedShader` is the identifier that
`getAppliedShader()` returns.  The variant-specific members exist only in an
object of the class that declares them: `toon` is `some` exactly in a
`ToonMaterial` object, `point` exactly in a `PointMaterial` object. -/
structure Material where
  appliedShader : String
  lights : List PointLight
  time : Scalar
  phong : Phong
  toon : Option ToonMembers
  point : Option Texture

/-- A mesh: where its geometry came from, the largest extent of its bounding box
(`geometry()->bbox().maxExtent()`) and the material it holds. -/
structure Mesh where
  source : String
  maxExtent : Scalar
  material : Nat

/-- A scene node: optional mesh, local transformation, ordered children. -/
structure Node where
  mesh : Option Nat
  transformation : QMatrix4x4
  children : List Nat

/-! ## Raster state and draw calls -/

inductive DepthFunc where
  | NEVER | LESS | EQUAL | LEQUAL | GREATER | NOTEQUAL | GEQUAL | ALWAYS
deriving DecidableEq

inductive BlendFactor where
  | ZERO | ONE | SRC_ALPHA | ONE_MINUS_SRC_ALPHA
deriving DecidableEq

/-- The part of the OpenGL state that `scene.cpp` touches. -/
structure RasterState where
  depthTest : Bool
  depthFunc : DepthFunc
  blend : Bool
  blendSrc : BlendFactor
  blendDst : BlendFactor
  cullFace : Bool
deriving DecidableEq

/-- A camera: view and projection matrix. -/
structure Camera where
  viewMatrix : QMatrix4x4
  projectionMatrix : QMatrix4x4

/-- One call `nodes_["World"]->draw(camera, i)`, with the raster state in force
when it is issued. -/
structure DrawCall where
  camera : Camera
  lightPass : Nat
  raster : RasterState

/-- What `draw_scene_` takes from outside the scene: the projection matrix that
`QMatrix4x4::perspective` builds for the aspect ratio of the parent widget, and
`QMatrix4x4::inverted`. -/
structure Viewport where
  projectionMatrix : QMatrix4x4
  inverted : QMatrix4x4 → QMatrix4x4

/-! ## `std::map` with string keys -/

/-- The value stored under key `k`, `none` when there is no entry. -/
def mapFind {α : Type} : List (String × α) → String → Option α
  | [], _ => none
  | (k', v) :: rest, k => if k = k' then some v else mapFind rest k

/-- Lexicographic order on character sequences by character code. -/
def charsLt : List Char → List Char → Bool
  | _, [] => false
  | [], _ :: _ => true
  | a :: as, b :: bs =>
    if a.toNat < b.toNat then true
    else if b.toNat < a.toNat then false
    else charsLt as bs

/-- The order of the keys, `operator<` of the key strings. -/
def keyLt (a b : String) : Bool := charsLt a.data b.data

/-- Assignment `m[k] = v`: overwrites the entry or inserts it at its place in
key order. -/
def mapInsert {α : Type} (k : String) (v : α) : List (String × α) → List (String × α)
  | [] => [(k, v)]
  | (k', v') :: rest =>
    if k = k' then (k, v) :: rest
    else if keyLt k k' then (k, v) :: (k', v') :: rest
    else (k', v') :: mapInsert k v rest

/-! ## The scene -/

structure Scene where
  nodeHeap : List Node
  meshHeap : List Mesh
  materialHeap : List Material
  nodes_ : List (String × Nat)
  meshes_ : List (String × Nat)
  mPhongMaterials_ : List (String × Nat)
  mToonMaterials_ : List (String × Nat)
  mPointMaterials_ : List (String × Nat)
  materials_ : List Nat
  material_ : Option Nat
  lightNodes_ : List Nat
  currentSceneNode : String
  raster : RasterState
  drawLog : List DrawCall
  updateRequests : Nat

/-- What the sources do not contain but the construction of a scene depends on:
the light array and Phong parameters a freshly constructed material starts
with, the `texture` parameters a fresh `PointMaterial` starts with, the bounding
box extent of each loaded model, the initial value of the member
`currentSceneNode`, and the raster state of the fresh OpenGL context. -/
structure Config where
  lights : List PointLight
  phong : Phong
  texture : Texture
  maxExtent : String → Scalar
  currentSceneNode : String
  raster : RasterState

namespace Scene

/-- The state of the members before the constructor body runs. -/
def empty (cfg : Config) : Scene :=
  { nodeHeap := [], meshHeap := [], materialHeap := [],
    nodes_ := [], meshes_ := [],
    mPhongMaterials_ := [], mToonMaterials_ := [], mPointMaterials_ := [],
    materials_ := [], material_ := none, lightNodes_ := [],
    currentSceneNode := cfg.currentSceneNode,
    raster := cfg.raster, drawLog := [], updateRequests := 0 }

/-- Allocation `make_shared<cls>(prog)` of a material; the defaults of the
members of `ToonMaterial` are those of `material/toon.h`.  The bodies of
`getAppliedShader` are not part of the sources: following the spec, each class
has its own lowercase identifier, "phong", "toon" and "point". -/
def newMaterial (s : Scene) (cfg : Config) (cls : MaterialClass) : Nat × Scene :=
  (s.materialHeap.length,
   { s with materialHeap := s.materialHeap ++
      [{ appliedShader :=
           (match cls with
            | .PhongMaterial => "phong"
            | .ToonMaterial => "toon"
            | .PointMaterial => "point"),
         lights := cfg.lights, time := 0, phong := cfg.phong,
         toon :=
           (match cls with
            | .ToonMaterial =>
              some { toonShader := { toon := false, silhoutte := false, threshold := 3 / 10,
                                     discretize := 0 },
                     texture := { density := 5, radius := 3 / 10,
                                  circleColor := ⟨6 / 10, 2 / 10, 8 / 10⟩,
                                  backgroundColor := ⟨3 / 10, 4 / 10, 6 / 10⟩ } }
            | _ => none),
         point :=
           (match cls with
            | .PointMaterial => some cfg.texture
            | _ => none) }] })

/-- Allocation `make_shared<Mesh>(source, material)`. -/
def newMesh (s : Scene) (cfg : Config) (source : String) (material : Nat) : Nat × Scene :=
  (s.meshHeap.length,
   { s with meshHeap := s.meshHeap ++
      [{ source := source, maxExtent := cfg.maxExtent source, material := material }] })

/-- Writes the Phong parameters of a material. -/
def setPhong (s : Scene) (mat : Nat) (p : Phong) : Option Scene :=
  match s.materialHeap[mat]? with
  | some m => some { s with materialHeap := s.materialHeap.set mat { m with phong := p } }
  | none => none

/-- Source: `Scene::createNode`. -/
def createNode (s : Scene) (mesh : Option Nat) (scale_to_1 : Bool) : Option (Nat × Scene) :=
  if scale_to_1 then
    match mesh with
    | none => none
    | some id =>
      match s.meshHeap[id]? with
      | none => none
      | some me =>
        let r := me.maxExtent
        let transform := QMatrix4x4.identity.scale ⟨1 / r, 1 / r, 1 / r⟩
        some (s.nodeHeap.length,
          { s with nodeHeap := s.nodeHeap ++
              [{ mesh := mesh, transformation := transform, children := [] }] })
  else
    some (s.nodeHeap.length,
      { s with nodeHeap := s.nodeHeap ++
          [{ mesh := mesh, transformation := QMatrix4x4.identity, children := [] }] })

/-- The statement `nodes_[name] = createNode(meshes_[meshName], true)`. -/
def addMeshNode (s : Scene) (name : String) : Option Scene :=
  match createNode s (mapFind s.meshes_ name) true with
  | some (id, s1) => some { s1 with nodes_ := mapInsert name id s1.nodes_ }
  | none => none

/-- The statement `meshes_[name] = make_shared<Mesh>(source, material)`. -/
def addMesh (s : Scene) (cfg : Config) (name source : String) (material : Nat) : Scene :=
  let (id, s1) := newMesh s cfg source material
  { s1 with meshes_ := mapInsert name id s1.meshes_ }

/-- Source: `Scene::makeNodes`. -/
def makeNodes (cfg : Config) (s : Scene) : Option Scene := do
  let (red, s) := newMaterial s cfg .PhongMaterial
  let (phong, s) := newMaterial s cfg .PhongMaterial
  let (color_toon, s) := newMaterial s cfg .ToonMaterial
  let (point, s) := newMaterial s cfg .PointMaterial
  let s := { s with mPhongMaterials_ := mapInsert "red" red s.mPhongMaterials_ }
  let s := { s with mPhongMaterials_ := mapInsert "phong" red s.mPhongMaterials_ }
  let s := { s with mPointMaterials_ := mapInsert "point" red s.mPointMaterials_ }
  let s := { s with mToonMaterials_ := mapInsert "toon" red s.mToonMaterials_ }
  let s := { s with materials_ := s.materials_ ++ [phong] }
  let s := { s with materials_ := s.materials_ ++ [color_toon] }
  let s := { s with materials_ := s.materials_ ++ [point] }
  let s := { s with material_ := some red }
  let s := { s with mPhongMaterials_ := mapInsert "red" red s.mPhongMaterials_ }
  let redDiffuse : QVector3D := ⟨8 / 10, 1 / 10, 1 / 10⟩
  let s ← setPhong s red
    { k_diffuse := redDiffuse, k_ambient := redDiffuse.scaled (3 / 10), shininess := 80 }
  let (goblin_Material, s) := newMaterial s cfg .PhongMaterial
  let s := { s with mPhongMaterials_ := mapInsert "goblin_Material" goblin_Material s.mPhongMaterials_ }
  let s ← setPhong s goblin_Material
    { k_diffuse := ⟨8 / 10, 6 / 10, 1 / 10⟩, k_ambient := redDiffuse.scaled (4 / 10),
      shininess := 90 }
  let std := red
  let s := addMesh s cfg "Duck" ":/models/duck/duck.obj" std
  let s := addMesh s cfg "Teapot" ":/models/teapot/teapot.obj" std
  let s := addMesh s cfg "Goblin" ":/models/goblin.obj" goblin_Material
  let s := addMesh s cfg "Yoda" ":/models/yoda/yoda.obj" std
  let s := addMesh s cfg "Torus" ":/models/torus.obj" std
  let s := addMesh s cfg "Cessna" ":/models/cessna.obj" std
  let s := addMesh s cfg "Cube" "geom::Cube" std
  let s ← addMeshNode s "Cube"
  let s ← addMeshNode s "Duck"
  let s ← addMeshNode s "Teapot"
  let s ← addMeshNode s "Goblin"
  let s ← addMeshNode s "Yoda"
  let s ← addMeshNode s "Torus"
  let s ← addMeshNode s "Cessna"
  pure s

/-- The statement `nodes_[name] = createNode(nullptr, false)`. -/
def addEmptyNode (s : Scene) (name : String) : Option Scene :=
  match createNode s none false with
  | some (id, s1) => some { s1 with nodes_ := mapInsert name id s1.nodes_ }
  | none => none

/-- The statement `nodes_[parent]->children.push_back(nodes_[child])`. -/
def pushChild (s : Scene) (parent child : String) : Option Scene :=
  match mapFind s.nodes_ parent, mapFind s.nodes_ child with
  | some p, some c =>
    match s.nodeHeap[p]? with
    | some nd => some { s with nodeHeap := s.nodeHeap.set p { nd with children := nd.children ++ [c] } }
    | none => none
  | _, _ => none

/-- Source: `Scene::makeScene`. -/
def makeScene (s : Scene) : Option Scene := do
  let s ← addEmptyNode s "World"
  let s ← addEmptyNode s "Scene"
  let s ← pushChild s "World" "Scene"
  let s ← addEmptyNode s "Camera"
  let s ← pushChild s "World" "Camera"
  let s ← addEmptyNode s "Light0"
  let light0 ← mapFind s.nodes_ "Light0"
  let s := { s with lightNodes_ := s.lightNodes_ ++ [light0] }
  let s ← pushChild s "Camera" "Light0"
  let nd ← s.nodeHeap[light0]?
  pure { s with nodeHeap :=
    s.nodeHeap.set light0 { nd with transformation := nd.transformation.translate ⟨0, 1, 0⟩ } }

/-- The part of the constructor that builds the scene: `makeNodes(); makeScene();`. -/
def create (cfg : Config) : Option Scene :=
  (makeNodes cfg (empty cfg)).bind makeScene

/-- Source: `Scene::update`, a redraw request to the parent widget. -/
def update (s : Scene) : Scene :=
  { s with updateRequests := s.updateRequests + 1 }

/-- Source: `Scene::setSceneNode`. -/
def setSceneNode (s : Scene) (node : String) : Option Scene :=
  match mapFind s.nodes_ node with
  | none => none
  | some n =>
    match mapFind s.nodes_ "Scene" with
    | none => none
    | some sc =>
      match s.nodeHeap[sc]? with
      | none => none
      | some nd =>
        some (update { s with nodeHeap := s.nodeHeap.set sc { nd with children := [] ++ [n] } })

/-- Source: `Scene::getCurrentSceneNode`. -/
def getCurrentSceneNode (s : Scene) : String := s.currentSceneNode

/-! ### Transforms along the tree -/

/-- Search for `target` below `self`, composing the local transformations on
the way down; `fuel` bounds the length of the path. -/
def pathTransform (heap : List Node) : Nat → Nat → Nat → Option QMatrix4x4
  | 0, _, _ => none
  | fuel + 1, self, target =>
    match heap[self]? with
    | none => none
    | some nd =>
      if self = target then some nd.transformation
      else
        (nd.children.findSome? (fun c => pathTransform heap fuel c target)).map
          (fun below => nd.transformation.mul below)

/-- Modelled from the spec: `Node::toParentTransform` (class `Node` is not part
of the sources) composes the local transforms along the path from this node to
the named descendant, both ends included, children searched in insertion order.
A path in a tree visits no node twice, so it is no longer than the heap; a
descendant that is not found gives `none`. -/
def toParentTransform (s : Scene) (self target : Nat) : Option QMatrix4x4 :=
  pathTransform s.nodeHeap s.nodeHeap.length self target

/-- The navigation collaborator writes the local transformation of the camera
node, `nodes_["Camera"]->transformation`. -/
def setCameraTransformation (s : Scene) (c : QMatrix4x4) : Option Scene :=
  match mapFind s.nodes_ "Camera" with
  | none => none
  | some cam =>
    match s.nodeHeap[cam]? with
    | none => none
    | some nd => some { s with nodeHeap := s.nodeHeap.set cam { nd with transformation := c } }

/-! ### Raster state calls -/

inductive Capability where
  | DEPTH_TEST | BLEND | CULL_FACE
deriving DecidableEq

def glSet (r : RasterState) (cap : Capability) (flag : Bool) : RasterState :=
  match cap with
  | .DEPTH_TEST => { r with depthTest := flag }
  | .BLEND => { r with blend := flag }
  | .CULL_FACE => { r with cullFace := flag }

def glEnable (s : Scene) (cap : Capability) : Scene := { s with raster := glSet s.raster cap true }

def glDisable (s : Scene) (cap : Capability) : Scene := { s with raster := glSet s.raster cap false }

def glDepthFunc (s : Scene) (f : DepthFunc) : Scene :=
  { s with raster := { s.raster with depthFunc := f } }

def glBlendFunc (s : Scene) (src dst : BlendFactor) : Scene :=
  { s with raster := { s.raster with blendSrc := src, blendDst := dst } }

/-! ### Drawing -/

/-- The call `nodes_["World"]->draw(camera, i)`.  The body of `Node::draw` is not
part of the sources; the call is recorded with the raster state it is issued
under and is taken to return with that state as it found it. -/
def drawWorld (s : Scene) (camera : Camera) (i : Nat) : Option Scene :=
  match mapFind s.nodes_ "World" with
  | none => none
  | some _ =>
    some { s with drawLog := s.drawLog ++ [{ camera := camera, lightPass := i, raster := s.raster }] }

/-- The assignment `mat->lights[i].position_WC = p`. -/
def setLightPosition (s : Scene) (mat i : Nat) (p : QVector3D) : Option Scene :=
  match s.materialHeap[mat]? with
  | none => none
  | some m =>
    match m.lights[i]? with
    | none => none
    | some l =>
      some { s with materialHeap :=
        s.materialHeap.set mat { m with lights := m.lights.set i { l with position_WC := p } } }

/-- The inner loop of `draw_scene_`, over the entries of `mPhongMaterials_`. -/
def setLightPositions (i : Nat) (p : QVector3D) : List (String × Nat) → Scene → Option Scene
  | [], s => some s
  | (_, mat) :: rest, s =>
    match setLightPosition s mat i p with
    | none => none
    | some s1 => setLightPositions i p rest s1

/-- The world position of light `i`:
`nodes_["World"]->toParentTransform(lightNodes_[i]) * QVector3D(0,0,0)`. -/
def lightPosition (s : Scene) (i : Nat) : Option QVector3D :=
  match mapFind s.nodes_ "World", s.lightNodes_[i]? with
  | some world, some light =>
    (toParentTransform s world light).map (fun lightToWorld => lightToWorld.map ⟨0, 0, 0⟩)
  | _, _ => none

/-- The last three statements of a light pass. -/
def blendSettings (s : Scene) : Scene :=
  glDepthFunc (glBlendFunc (glEnable s .BLEND) .ONE .ONE) .EQUAL

/-- The loop `for i in 0 .. lightNodes_.size()` of `draw_scene_`, run over the
remaining pass indices.  (The counter is an `unsigned int`; it does not wrap for
fewer than `2^32` lights.) -/
def lightPasses (camera : Camera) : List Nat → Scene → Option Scene
  | [], s => some s
  | i :: rest, s =>
    match lightPosition s i with
    | none => none
    | some p =>
      match setLightPositions i p s.mPhongMaterials_ s with
      | none => none
      | some s1 =>
        match drawWorld s1 camera i with
        | none => none
        | some s2 => lightPasses camera rest (blendSettings s2)

/-- Source: `Scene::draw_scene_`.  Clearing the colour and depth buffer leaves
the modelled state as it is. -/
def draw_scene_ (vp : Viewport) (s : Scene) : Option Scene :=
  match mapFind s.nodes_ "World", mapFind s.nodes_ "Camera" with
  | some world, some cam =>
    match toParentTransform s world cam with
    | none => none
    | some camToWorld =>
      let camera : Camera := ⟨vp.inverted camToWorld, vp.projectionMatrix⟩
      let s := glDepthFunc s .LESS
      let s := glEnable s .DEPTH_TEST
      let s := glDisable s .BLEND
      let s := glDisable s .CULL_FACE
      lightPasses camera (List.range s.lightNodes_.length) s
  | _, _ => none

/-- The loop of `draw` that writes the animation time into the materials of
`mPhongMaterials_`. -/
def setTimes (t : Scalar) : List (String × Nat) → Scene → Option Scene
  | [], s => some s
  | (_, mat) :: rest, s =>
    match s.materialHeap[mat]? with
    | none => none
    | some m =>
      setTimes t rest { s with materialHeap := s.materialHeap.set mat { m with time := t } }

/-- Source: `Scene::draw`; `t` is the time since the first draw in seconds. -/
def draw (vp : Viewport) (t : Scalar) (s : Scene) : Option Scene :=
  (setTimes t s.mPhongMaterials_ s).bind (draw_scene_ vp)

/-- The loop `for (auto& element : meshes_) mesh->replaceMaterial(material)`. -/
def replaceMaterials (material : Nat) : List (String × Nat) → Scene → Option Scene
  | [], s => some s
  | (_, mesh) :: rest, s =>
    match s.meshHeap[mesh]? with
    | none => none
    | some me =>
      replaceMaterials material rest
        { s with meshHeap := s.meshHeap.set mesh { me with material := material } }

/-- The loop of `replaceMaterialAndDrawScene` over the lights; it writes the
light position into `material_` only. -/
def lightPassesMaterial (camera : Camera) : List Nat → Scene → Option Scene
  | [], s => some s
  | i :: rest, s =>
    match lightPosition s i, s.material_ with
    | some p, some mat =>
      match setLightPosition s mat i p with
      | none => none
      | some s1 =>
        match drawWorld s1 camera i with
        | none => none
        | some s2 => lightPassesMaterial camera rest (blendSettings s2)
    | _, _ => none

/-- Source: `Scene::replaceMaterialAndDrawScene`.  The debug output reads
`material->getAppliedShader()`, which needs `material` to be a live object. -/
def replaceMaterialAndDrawScene (s : Scene) (camera : Camera) (material : Nat) : Option Scene :=
  match s.meshes_ with
  | [] => none
  | (_, first) :: _ =>
    match s.meshHeap[first]? with
    | none => none
    | some firstMesh =>
      let replaced : Option Scene :=
        if material ≠ firstMesh.material then
          match s.materialHeap[material]? with
          | none => none
          | some _ => replaceMaterials material s.meshes_ s
        else some s
      match replaced with
      | none => none
      | some s1 => lightPassesMaterial camera (List.range s1.lightNodes_.length) s1

/-! ### Material parameters -/

/-- The expression `meshes_[getCurrentSceneNode()]->material()`: the material
held by the mesh registered under the current scene node. -/
def currentMaterial (s : Scene) : Option Nat :=
  match mapFind s.meshes_ s.getCurrentSceneNode with
  | none => none
  | some mesh =>
    match s.meshHeap[mesh]? with
    | none => none
    | some me => some me.material

/-- A write `tm->toonShader.field = value` through `ToonMaterial* tm`.  The
member `toonShader` exists in `ToonMaterial` objects only; through a pointer to
an object of another class the write lands outside the object. -/
def writeToonShader (s : Scene) (tm : Nat) (f : ToonShader → ToonShader) : Option Scene :=
  match s.materialHeap[tm]? with
  | none => none
  | some m =>
    match m.toon with
    | none => none
    | some t =>
      some { s with materialHeap :=
        s.materialHeap.set tm { m with toon := some { t with toonShader := f t.toonShader } } }

/-- A write `tm->texture.field = value` through `PointMaterial* tm`.  The member
written exists in `PointMaterial` objects only; through a pointer to an object
of another class the write lands outside the object. -/
def writePointTexture (s : Scene) (tm : Nat) (f : Texture → Texture) : Option Scene :=
  match s.materialHeap[tm]? with
  | none => none
  | some m =>
    match m.point with
    | none => none
    | some t => some { s with materialHeap := s.materialHeap.set tm { m with point := some (f t) } }

/-- The identifier `material->getAppliedShader()`. -/
def getAppliedShader (s : Scene) (material : Nat) : Option String :=
  (s.materialHeap[material]?).map (fun m => m.appliedShader)

/-- Source: `Scene::enableSilhoutte`. -/
def enableSilhoutte (s : Scene) (enable : Bool) : Option Scene :=
  match currentMaterial s with
  | none => none
  | some material =>
    match getAppliedShader s material with
    | none => none
    | some shader =>
      if "toon" = shader then
        match mapFind s.mToonMaterials_ "toon" with
        | none => none
        | some tm =>
          (writeToonShader s tm (fun t => { t with silhoutte := enable })).map update
      else some (update s)

/-- Source: `Scene::setThreshold`. -/
def setThreshold (s : Scene) (threshold : Scalar) : Option Scene :=
  match currentMaterial s with
  | none => none
  | some material =>
    match getAppliedShader s material with
    | none => none
    | some shader =>
      if "toon" = shader then
        match mapFind s.mToonMaterials_ "toon" with
        | none => none
        | some tm =>
          (writeToonShader s tm (fun t => { t with threshold := threshold })).map update
      else some (update s)

/-- Source: `Scene::setAmountOfDiscretiz`. -/
def setAmountOfDiscretiz (s : Scene) (amount : Int) : Option Scene :=
  match currentMaterial s with
  | none => none
  | some material =>
    match getAppliedShader s material with
    | none => none
    | some shader =>
      if "toon" = shader then
        match mapFind s.mToonMaterials_ "toon" with
        | none => none
        | some tm =>
          (writeToonShader s tm (fun t => { t with discretize := amount })).map update
      else some (update s)

/-- The loop `for i in 0 .. lightNodes_.size()` of the colour setters:
`material->lights[i].color` is changed by `f`. -/
def setLightColors (f : QVector3D → QVector3D) (material : Nat) : List Nat → Scene → Option Scene
  | [], s => some s
  | i :: rest, s =>
    match s.materialHeap[material]? with
    | none => none
    | some m =>
      match m.lights[i]? with
      | none => none
      | some l =>
        setLightColors f material rest
          { s with materialHeap :=
              s.materialHeap.set material { m with lights := m.lights.set i { l with color := f l.color } } }

/-- Source: `Scene::setBlueIntensity`. -/
def setBlueIntensity (s : Scene) (blueIntensitiy : Scalar) : Option Scene :=
  match currentMaterial s with
  | none => none
  | some material =>
    (setLightColors (fun c => { c with z := blueIntensitiy }) material
      (List.range s.lightNodes_.length) s).map update

/-- Source: `Scene::setRedIntensity`. -/
def setRedIntensity (s : Scene) (redIntensitiy : Scalar) : Option Scene :=
  match currentMaterial s with
  | none => none
  | some material =>
    (setLightColors (fun c => { c with x := redIntensitiy }) material
      (List.range s.lightNodes_.length) s).map update

/-- Source: `Scene::setGreenIntensity`. -/
def setGreenIntensity (s : Scene) (greenIntensitiy : Scalar) : Option Scene :=
  match currentMaterial s with
  | none => none
  | some material =>
    (setLightColors (fun c => { c with y := greenIntensitiy }) material
      (List.range s.lightNodes_.length) s).map update

/-- Source: `Scene::setRadius`. -/
def setRadius (s : Scene) (radius : Scalar) : Option Scene :=
  match currentMaterial s with
  | none => none
  | some material =>
    match getAppliedShader s material with
    | none => none
    | some shader =>
      if "point" = shader then
        match mapFind s.mPointMaterials_ "point" with
        | none => none
        | some tm =>
          (writePointTexture s tm (fun t => { t with radius := radius })).map update
      else some (update s)

/-- Source: `Scene::setDensity`. -/
def setDensity (s : Scene) (density : Scalar) : Option Scene :=
  match currentMaterial s with
  | none => none
  | some material =>
    match getAppliedShader s material with
    | none => none
    | some shader =>
      if "point" = shader then
        match mapFind s.mPointMaterials_ "point" with
        | none => none
        | some tm =>
          (writePointTexture s tm (fun t => { t with density := density })).map update
      else some (update s)

/-- Source: `Scene::revertPoint`. -/
def revertPoint (s : Scene) (revert : Bool) : Option Scene :=
  match currentMaterial s with
  | none => none
  | some material =>
    match getAppliedShader s material with
    | none => none
    | some shader =>
      if "point" = shader then
        match mapFind s.mPointMaterials_ "point" with
        | none => none
        | some tm =>
          (writePointTexture s tm (fun t => { t with shouldDiscard := revert })).map update
      else some (update s)

/-- The loop of `setLightIntensity` over `materials_`. -/
def setIntensities (i : Nat) (v : Scalar) : List Nat → Scene → Option Scene
  | [], s => some s
  | mat :: rest, s =>
    match s.materialHeap[mat]? with
    | none => none
    | some m =>
      match m.lights[i]? with
      | none => none
      | some l =>
        setIntensities i v rest
          { s with materialHeap :=
              s.materialHeap.set mat { m with lights := m.lights.set i { l with intensity := v } } }

/-- Source: `Scene::setLightIntensity`.  The call of `update()` follows the loop;
the early return for an index that is no light comes before it. -/
def setLightIntensity (s : Scene) (i : Nat) (v : Scalar) : Option Scene :=
  if i ≥ s.lightNodes_.length then some s
  else (setIntensities i v s.materials_ s).map update

/-- The loop of `setShader` over `materials_`. -/
def setToonFlags (shader : String) (isToonShader : Bool) : List Nat → Scene → Option Scene
  | [], s => some s
  | mat :: rest, s =>
    match getAppliedShader s mat with
    | none => none
    | some applied =>
      if applied = shader then
        match mapFind s.mToonMaterials_ "toon" with
        | none => none
        | some tm =>
          match writeToonShader s tm (fun t => { t with toon := isToonShader }) with
          | none => none
          | some s1 => setToonFlags shader isToonShader rest s1
      else setToonFlags shader isToonShader rest s

/-- Source: `Scene::setShader`; `toLower` acts on the letters `A` to `Z`. -/
def setShader (s : Scene) (shader : String) : Option Scene :=
  let shader : String := ⟨shader.data.map Char.toLower⟩
  let isToonShader : Bool := decide ("toon" = shader)
  (setToonFlags shader isToonShader s.materials_ s).map update

end Scene

/-! ## Observations used in the statements -/

/-- The number of light slots of every material, by heap index. -/
def lightSlots (s : Scene) : List Nat := s.materialHeap.map (fun m => m.lights.length)

/-- The material held by the mesh with heap index `mesh`. -/
def meshMaterial (s : Scene) (mesh : Nat) : Option Nat :=
  (s.meshHeap[mesh]?).map Mesh.material

/-- The nodes met on a walk from node `n` along the child pointers, each child
list in order, given the child list of every node by heap index; `none` when
the walk goes deeper than `fuel` levels or meets a dangling pointer. -/
def walk (kids : List (List Nat)) : Nat → Nat → Option (List Nat)
  | 0, _ => none
  | fuel + 1, n =>
    match kids[n]? with
    | none => none
    | some cs =>
      (cs.foldr
        (fun c acc =>
          match walk kids fuel c, acc with
          | some a, some b => some (a ++ b)
          | _, _ => none)
        (some [])).map (fun below => n :: below)

/-- The graph reachable from `root` is a tree: the walk from `root` ends within
as many levels as there are nodes (a cycle would allow a walk of any depth) and
meets no node twice (no node is reached along two paths, so none has two
parents and none is its own descendant). -/
def treeFrom (kids : List (List Nat)) (root : Nat) : Bool :=
  match walk kids kids.length root with
  | none => false
  | some visited => decide visited.Nodup

/-- The node graph reachable from "World" is a tree rooted there. -/
def isTree (s : Scene) : Bool :=
  match mapFind s.nodes_ "World" with
  | none => false
  | some world => treeFrom (s.nodeHeap.map Node.children) world

/-- A sequence of calls of `setSceneNode`. -/
def setSceneNodes : List String → Scene → Option Scene
  | [], s => some s
  | node :: rest, s =>
    match s.setSceneNode node with
    | none => none
    | some s1 => setSceneNodes rest s1

/-- The names under which `makeNodes` registers the nodes that carry a mesh. -/
def meshNodeNames : List String :=
  ["Cube", "Duck", "Teapot", "Goblin", "Yoda", "Torus", "Cessna"]

/-! ## A concrete scene -/

/-- Stand-in values for what `Config` describes: one light slot per material, no
scene node selected. -/
def cfg0 : Config :=
  { lights := [{ position_WC := ⟨0, 0, 0⟩, color := ⟨1, 1, 1⟩, intensity := 1 / 2 }],
    phong := { k_diffuse := ⟨1, 1, 1⟩, k_ambient := ⟨1, 1, 1⟩, shininess := 1 },
    texture := { density := 5, radius := 3 / 10, circleColor := ⟨6 / 10, 2 / 10, 8 / 10⟩,
                 backgroundColor := ⟨3 / 10, 4 / 10, 6 / 10⟩, shouldDiscard := false },
    maxExtent := fun _ => 2,
    currentSceneNode := "",
    raster := { depthTest := false, depthFunc := .LESS, blend := false,
                blendSrc := .ONE, blendDst := .ZERO, cullFace := false } }

/-- Stand-in for the viewport: the draw calls are recorded with the camera they
are given and nothing else depends on it. -/
def vp0 : Viewport := { projectionMatrix := QMatrix4x4.identity, inverted := fun a => a }

/-- A camera for calls of `replaceMaterialAndDrawScene`. -/
def camera0 : Camera := ⟨QMatrix4x4.identity, QMatrix4x4.identity⟩

/-- The scene that the constructor builds for `cfg0`.  Heap indices: nodes
Cube 0, Duck 1, Teapot 2, Goblin 3, Yoda 4, Torus 5, Cessna 6, World 7, Scene 8,
Camera 9, Light0 10; meshes Duck 0, Teapot 1, Goblin 2, Yoda 3, Torus 4,
Cessna 5, Cube 6; materials red 0, phong 1, color_toon 2, point 3,
goblin_Material 4. -/
def scene0 : Scene := (Scene.create cfg0).get (by decide)

/-- The scene of `cfg0` with the member `currentSceneNode` naming the cube. -/
def sceneCube : Scene := (Scene.create { cfg0 with currentSceneNode := "Cube" }).get (by decide)

/-- The scene `sceneCube` after `replaceMaterialAndDrawScene(camera0, color_toon)`:
every mesh holds the toon material, heap index 2. -/
def sceneToon : Scene := (sceneCube.replaceMaterialAndDrawScene camera0 2).get (by decide)

/-- The scene `sceneCube` after `replaceMaterialAndDrawScene(camera0, point)`:
every mesh holds the point material, heap index 3. -/
def scenePoint : Scene := (sceneCube.replaceMaterialAndDrawScene camera0 3).get (by decide)

/-- The constructed scene after the navigator has moved the camera node by
(0,0,3). -/
def sceneMoved : Scene :=
  (scene0.setCameraTransformation (QMatrix4x4.identity.translate ⟨0, 0, 3⟩)).get (by decide)

/-- The child lists of the constructed scene, by heap index. -/
def kids0 : List (List Nat) := [[], [], [], [], [], [], [], [8, 9], [], [10], []]

/-- The child lists that occur when the "Scene" node holds nothing or one of the
seven mesh nodes. -/
def sceneShapes : List (List (List Nat)) :=
  kids0 :: (List.range 7).map (fun i => kids0.set 8 [i])

/-- The name table of the constructed scene. -/
def nodes0 : List (String × Nat) :=
  [("Camera", 9), ("Cessna", 6), ("Cube", 0), ("Duck", 1), ("Goblin", 3), ("Light0", 10),
   ("Scene", 8), ("Teapot", 2), ("Torus", 5), ("World", 7), ("Yoda", 4)]

/-! ## Frame lemmas for the loops -/

open Scene

theorem map_set_same {α β : Type} (f : α → β) (l : List α) (i : Nat) (a b : α)
    (h : l[i]? = some a) (hf : f b = f a) : (l.set i b).map f = l.map f := by
  apply List.ext_getElem?
  intro j
  simp only [List.getElem?_map, List.getElem?_set]
  by_cases hij : i = j
  · subst hij
    have hlt : i < l.length := by
      rcases Nat.lt_or_ge i l.length with h1 | h1
      · exact h1
      · rw [List.getElem?_eq_none h1] at h
        cases h
    simp [hlt, h, hf]
  · simp [hij]

theorem lightSlots_getElem (s : Scene) (mat len : Nat) (h : (lightSlots s)[mat]? = some len) :
    ∃ m, s.materialHeap[mat]? = some m ∧ m.lights.length = len := by
  unfold lightSlots at h
  rw [List.getElem?_map] at h
  cases hm : s.materialHeap[mat]? with
  | none => rw [hm] at h; cases h
  | some m =>
    rw [hm] at h
    exact ⟨m, rfl, by simpa using h⟩

theorem setLightPosition_frame (s : Scene) (mat i len : Nat) (p : QVector3D)
    (hm : (lightSlots s)[mat]? = some len) (hi : i < len) :
    ∃ h, setLightPosition s mat i p = some { s with materialHeap := h } ∧
      h.map (fun m => m.lights.length) = lightSlots s := by
  obtain ⟨m, hmm, hlen⟩ := lightSlots_getElem s mat len hm
  obtain ⟨l, hl⟩ : ∃ l, m.lights[i]? = some l :=
    ⟨_, List.getElem?_eq_getElem (by omega)⟩
  refine ⟨s.materialHeap.set mat { m with lights := m.lights.set i { l with position_WC := p } },
    by simp only [setLightPosition, hmm, hl], ?_⟩
  exact map_set_same _ _ _ m _ hmm (by simp)

theorem setLightPositions_frame (i : Nat) (p : QVector3D) (l : List (String × Nat)) :
    ∀ s : Scene, (∀ e ∈ l, ∃ len, (lightSlots s)[e.2]? = some len ∧ i < len) →
    ∃ h, setLightPositions i p l s = some { s with materialHeap := h } ∧
      h.map (fun m => m.lights.length) = lightSlots s := by
  induction l with
  | nil => intro s _; exact ⟨s.materialHeap, rfl, rfl⟩
  | cons e rest ih =>
    intro s hs
    obtain ⟨k, mat⟩ := e
    obtain ⟨len, hlen, hi⟩ := hs (k, mat) (List.mem_cons_self _ _)
    obtain ⟨h1, hrun1, hmap1⟩ := setLightPosition_frame s mat i len p hlen hi
    have hs1 : ∀ e ∈ rest, ∃ len,
        (lightSlots { s with materialHeap := h1 })[e.2]? = some len ∧ i < len := by
      intro e he
      have := hs e (List.mem_cons_of_mem _ he)
      simpa only [lightSlots, hmap1] using this
    obtain ⟨h2, hrun2, hmap2⟩ := ih { s with materialHeap := h1 } hs1
    refine ⟨h2, ?_, ?_⟩
    · simp only [setLightPositions, hrun1, hrun2]
    · rw [hmap2]; exact hmap1

/-- The raster state after the last three statements of a light pass. -/
theorem blendSettings_raster (s : Scene) :
    (blendSettings s).raster =
      { s.raster with blend := true, blendSrc := .ONE, blendDst := .ONE, depthFunc := .EQUAL } := rfl

/-- The loop of `draw_scene_` runs to its end when the world node exists, every
light of the passes is found below it and every material of `mPhongMaterials_`
has a slot for it.  It changes the materials, the log and the raster state only;
the first pass is drawn under the raster state on entry, the later ones under
the blend settings. -/
theorem lightPasses_frame (camera : Camera) (world : Nat) (passes : List Nat) :
    ∀ s : Scene, mapFind s.nodes_ "World" = some world →
    (∀ i ∈ passes, ∃ light, s.lightNodes_[i]? = some light ∧
        (toParentTransform s world light).isSome) →
    (∀ e ∈ s.mPhongMaterials_, ∃ len, (lightSlots s)[e.2]? = some len ∧ ∀ i ∈ passes, i < len) →
    ∃ h, lightPasses camera passes s = some { s with
        materialHeap := h
        drawLog := s.drawLog ++
          (match passes with
           | [] => []
           | i :: rest => ⟨camera, i, s.raster⟩ ::
               rest.map (fun j => ⟨camera, j, (blendSettings s).raster⟩))
        raster := (match passes with
           | [] => s.raster
           | _ :: _ => (blendSettings s).raster) } ∧
      h.map (fun m => m.lights.length) = lightSlots s := by
  induction passes with
  | nil =>
    intro s _ _ _
    exact ⟨s.materialHeap, by simp [lightPasses], rfl⟩
  | cons i rest ih =>
    intro s hw hl hm
    obtain ⟨light, hlight, hsome⟩ := hl i (List.mem_cons_self _ _)
    obtain ⟨lightToWorld, hlw⟩ := Option.isSome_iff_exists.mp hsome
    have hpos : lightPosition s i = some (lightToWorld.map ⟨0, 0, 0⟩) := by
      simp only [lightPosition, hw, hlight, hlw, Option.map_some']
    have hm1 : ∀ e ∈ s.mPhongMaterials_, ∃ len, (lightSlots s)[e.2]? = some len ∧ i < len := by
      intro e he
      obtain ⟨len, h1, h2⟩ := hm e he
      exact ⟨len, h1, h2 i (List.mem_cons_self _ _)⟩
    obtain ⟨h1, hrun1, hmap1⟩ :=
      setLightPositions_frame i (lightToWorld.map ⟨0, 0, 0⟩) s.mPhongMaterials_ s hm1
    have hdraw : drawWorld { s with materialHeap := h1 } camera i
        = some { s with materialHeap := h1, drawLog := s.drawLog ++ [⟨camera, i, s.raster⟩] } := by
      simp only [drawWorld, hw]
    obtain ⟨h2, hrun2, hmap2⟩ := ih
      (blendSettings { s with materialHeap := h1, drawLog := s.drawLog ++ [⟨camera, i, s.raster⟩] })
      hw
      (fun j hj => hl j (List.mem_cons_of_mem _ hj))
      (by
        intro e he
        obtain ⟨len, h3, h4⟩ := hm e he
        refine ⟨len, ?_, fun j hj => h4 j (List.mem_cons_of_mem _ hj)⟩
        simpa only [lightSlots, blendSettings, glDepthFunc, glBlendFunc, glEnable, hmap1] using h3)
    refine ⟨h2, ?_, ?_⟩
    · simp only [lightPasses, hpos, hrun1, hdraw, hrun2]
      cases rest with
      | nil => simp [blendSettings, glDepthFunc, glBlendFunc, glEnable, glSet]
      | cons j rest2 => simp [blendSettings, glDepthFunc, glBlendFunc, glEnable, glSet]
    · rw [hmap2]
      simpa only [lightSlots, blendSettings, glDepthFunc, glBlendFunc, glEnable] using hmap1

/-- The loop of `replaceMaterialAndDrawScene` over the lights runs to its end
when the world node exists, every light of the passes is found below it and
`material_` has a slot for it; it changes the materials, the log and the raster
state only. -/
theorem lightPassesMaterial_frame (camera : Camera) (world mat len : Nat) (passes : List Nat) :
    ∀ s : Scene, mapFind s.nodes_ "World" = some world →
    (∀ i ∈ passes, ∃ light, s.lightNodes_[i]? = some light ∧
        (toParentTransform s world light).isSome) →
    s.material_ = some mat → (lightSlots s)[mat]? = some len → (∀ i ∈ passes, i < len) →
    ∃ h lg r, lightPassesMaterial camera passes s
        = some { s with materialHeap := h, drawLog := lg, raster := r } := by
  induction passes with
  | nil =>
    intro s _ _ _ _ _
    exact ⟨s.materialHeap, s.drawLog, s.raster, rfl⟩
  | cons i rest ih =>
    intro s hw hl hmat hlen hi
    obtain ⟨light, hlight, hsome⟩ := hl i (List.mem_cons_self _ _)
    obtain ⟨lightToWorld, hlw⟩ := Option.isSome_iff_exists.mp hsome
    have hpos : lightPosition s i = some (lightToWorld.map ⟨0, 0, 0⟩) := by
      simp only [lightPosition, hw, hlight, hlw, Option.map_some']
    obtain ⟨h1, hrun1, hmap1⟩ :=
      setLightPosition_frame s mat i len (lightToWorld.map ⟨0, 0, 0⟩) hlen
        (hi i (List.mem_cons_self _ _))
    have hdraw : drawWorld { s with materialHeap := h1 } camera i
        = some { s with materialHeap := h1, drawLog := s.drawLog ++ [⟨camera, i, s.raster⟩] } := by
      simp only [drawWorld, hw]
    obtain ⟨h2, lg2, r2, hrun2⟩ := ih
      (blendSettings { s with materialHeap := h1, drawLog := s.drawLog ++ [⟨camera, i, s.raster⟩] })
      hw
      (fun j hj => hl j (List.mem_cons_of_mem _ hj))
      hmat
      (by simpa only [lightSlots, blendSettings, glDepthFunc, glBlendFunc, glEnable, hmap1]
            using hlen)
      (fun j hj => hi j (List.mem_cons_of_mem _ hj))
    refine ⟨h2, lg2, r2, ?_⟩
    simp only [lightPassesMaterial, hpos]
    rw [hmat]
    simp only [hrun1, hdraw, hrun2]
    simp [blendSettings, glDepthFunc, glBlendFunc, glEnable, hmat]

/-- The loop over the mesh registry runs to its end when every registered mesh
is a live object; it changes the meshes only, every registered mesh holds
`material` afterwards, and a mesh that held it before still does. -/
theorem replaceMaterials_frame (material : Nat) (l : List (String × Nat)) :
    ∀ s : Scene, (∀ e ∈ l, e.2 < s.meshHeap.length) →
    ∃ mh, replaceMaterials material l s = some { s with meshHeap := mh } ∧
      mh.length = s.meshHeap.length ∧
      (∀ e ∈ l, (mh[e.2]?).map Mesh.material = some material) ∧
      (∀ j : Nat, (s.meshHeap[j]?).map Mesh.material = some material →
        (mh[j]?).map Mesh.material = some material) := by
  induction l with
  | nil =>
    intro s _
    exact ⟨s.meshHeap, rfl, rfl, fun e he => absurd he (List.not_mem_nil _), fun _ h => h⟩
  | cons e rest ih =>
    intro s hs
    obtain ⟨k, mesh⟩ := e
    have hlt : mesh < s.meshHeap.length := hs (k, mesh) (List.mem_cons_self _ _)
    obtain ⟨me, hme⟩ : ∃ me, s.meshHeap[mesh]? = some me := ⟨_, List.getElem?_eq_getElem hlt⟩
    obtain ⟨mh, hrun, hlen, hall, hkeep⟩ :=
      ih { s with meshHeap := s.meshHeap.set mesh { me with material := material } }
        (by
          intro e he
          simpa only [List.length_set] using hs e (List.mem_cons_of_mem _ he))
    have hhead : (mh[mesh]?).map Mesh.material = some material := by
      apply hkeep
      simp [List.getElem?_set, hlt]
    refine ⟨mh, ?_, ?_, ?_, ?_⟩
    · simp only [replaceMaterials, hme, hrun]
    · simpa only [List.length_set] using hlen
    · intro e he
      rcases List.mem_cons.mp he with rfl | he
      · exact hhead
      · exact hall e he
    · intro j hj
      apply hkeep
      simp only [List.getElem?_set]
      by_cases hmj : mesh = j
      · subst hmj
        simp [hlt]
      · simpa [hmj] using hj

/-- A write through a material pointer changes the material heap only. -/
theorem writeToonShader_frame (s s' : Scene) (tm : Nat) (f : ToonShader → ToonShader)
    (h : writeToonShader s tm f = some s') : s' = { s with materialHeap := s'.materialHeap } := by
  unfold writeToonShader at h
  split at h
  · cases h
  · split at h
    · cases h
    · cases h
      rfl

theorem writePointTexture_frame (s s' : Scene) (tm : Nat) (f : Texture → Texture)
    (h : writePointTexture s tm f = some s') : s' = { s with materialHeap := s'.materialHeap } := by
  unfold writePointTexture at h
  split at h
  · cases h
  · split at h
    · cases h
    · cases h
      rfl

theorem setLightColors_frame (f : QVector3D → QVector3D) (material : Nat) (passes : List Nat) :
    ∀ s s' : Scene, setLightColors f material passes s = some s' →
      s' = { s with materialHeap := s'.materialHeap } := by
  induction passes with
  | nil => intro s s' h; cases h; rfl
  | cons i rest ih =>
    intro s s' h
    unfold setLightColors at h
    split at h
    · cases h
    · split at h
      · cases h
      · have := ih _ _ h
        rw [this]

theorem setIntensities_frame (i : Nat) (v : Scalar) (mats : List Nat) :
    ∀ s s' : Scene, setIntensities i v mats s = some s' →
      s' = { s with materialHeap := s'.materialHeap } := by
  induction mats with
  | nil => intro s s' h; cases h; rfl
  | cons mat rest ih =>
    intro s s' h
    unfold setIntensities at h
    split at h
    · cases h
    · split at h
      · cases h
      · have := ih _ _ h
        rw [this]

theorem setToonFlags_frame (shader : String) (isToonShader : Bool) (mats : List Nat) :
    ∀ s s' : Scene, setToonFlags shader isToonShader mats s = some s' →
      s' = { s with materialHeap := s'.materialHeap } := by
  induction mats with
  | nil => intro s s' h; cases h; rfl
  | cons mat rest ih =>
    intro s s' h
    unfold setToonFlags at h
    split at h
    · cases h
    · split at h
      · split at h
        · cases h
        · split at h
          · cases h
          · rename_i s1 hmod
            have h1 := writeToonShader_frame _ _ _ _ hmod
            have h2 := ih _ _ h
            rw [h2, h1]
      · exact ih _ _ h

/-- A setter that runs its writes on the material heap and then calls `update()`
has made one redraw request when it returns. -/
theorem map_update_redraw (s s' : Scene) (r : Option Scene)
    (hr : ∀ s1, r = some s1 → s1 = { s with materialHeap := s1.materialHeap })
    (h : r.map update = some s') : s'.updateRequests = s.updateRequests + 1 := by
  cases r with
  | none => cases h
  | some s1 =>
    cases h
    rw [hr s1 rfl]
    rfl

/-- The common shape of the six variant setters. -/
theorem routed_redraw (s s' : Scene) (cur : Option Nat) (shaderOf : Nat → Option String)
    (variant : String) (reg : Option Nat) (write : Nat → Option Scene)
    (hwrite : ∀ tm s1, write tm = some s1 → s1 = { s with materialHeap := s1.materialHeap })
    (h : (match cur with
          | none => none
          | some material =>
            match shaderOf material with
            | none => none
            | some shader =>
              if variant = shader then
                match reg with
                | none => none
                | some tm => (write tm).map update
              else some (update s)) = some s') :
    s'.updateRequests = s.updateRequests + 1 := by
  cases cur with
  | none => cases h
  | some material =>
    cases hsh : shaderOf material with
    | none => simp only [hsh] at h; cases h
    | some shader =>
      simp only [hsh] at h
      by_cases hv : variant = shader
      · simp only [hv, if_true] at h
        cases reg with
        | none => cases h
        | some tm =>
          exact map_update_redraw s s' _ (fun s1 h1 => hwrite tm s1 h1) h
      · simp only [hv, if_false] at h
        cases h
        rfl

/-- The common shape of the three colour setters. -/
theorem colour_redraw (s s' : Scene) (cur : Option Nat) (f : QVector3D → QVector3D)
    (h : (match cur with
          | none => none
          | some material =>
            (setLightColors f material (List.range s.lightNodes_.length) s).map update)
          = some s') :
    s'.updateRequests = s.updateRequests + 1 := by
  cases cur with
  | none => cases h
  | some material =>
    exact map_update_redraw s s' _ (fun s1 h1 => setLightColors_frame _ _ _ _ _ h1) h

/-! ## Theorems -/

/-- C1: when `node` names a node (and the "Scene" node exists), `setSceneNode`
returns, leaves the name table as it was, and the children of the "Scene" node
are exactly the one node named `node`, whatever they were before. -/
theorem setSceneNode_children (s : Scene) (node : String) (n sc : Nat) (nd : Node)
    (hn : mapFind s.nodes_ node = some n)
    (hsc : mapFind s.nodes_ "Scene" = some sc)
    (hnd : s.nodeHeap[sc]? = some nd) :
    ∃ s', s.setSceneNode node = some s' ∧ s'.nodes_ = s.nodes_ ∧
      (s'.nodeHeap[sc]?).map (fun x => x.children) = some [n] := by
  have hlt : sc < s.nodeHeap.length := by
    rcases Nat.lt_or_ge sc s.nodeHeap.length with h | h
    · exact h
    · rw [List.getElem?_eq_none h] at hnd
      cases hnd
  have hrun : s.setSceneNode node
      = some (update { s with nodeHeap := s.nodeHeap.set sc { nd with children := [] ++ [n] } }) := by
    simp only [setSceneNode, hn, hsc, hnd]
  refine ⟨_, hrun, rfl, ?_⟩
  simp [update, List.getElem?_set, hlt]

/-- Witness for C1: the "Scene" node holds the cube; after
`setSceneNode "Duck"` it holds the duck only. -/
theorem setSceneNode_children_witness :
    mapFind (scene0.setSceneNode "Cube" |>.get (by decide)).nodes_ "Duck" = some 1 ∧
    ∃ s', (scene0.setSceneNode "Cube" |>.get (by decide)).setSceneNode "Duck" = some s' ∧
      s'.nodes_ = (scene0.setSceneNode "Cube" |>.get (by decide)).nodes_ ∧
      (s'.nodeHeap[8]?).map (fun x => x.children) = some [1] :=
  ⟨by decide,
   setSceneNode_children (scene0.setSceneNode "Cube" |>.get (by decide)) "Duck" 1 8
    ⟨none, QMatrix4x4.identity, [0]⟩ (by decide) (by decide) rfl⟩

/-- C10 as the code has it: `setSceneNode` does not write the member that
`getCurrentSceneNode` returns, so the current scene node after the call is the
one before it. -/
theorem setSceneNode_keeps_currentSceneNode (s : Scene) (node : String) (n sc : Nat) (nd : Node)
    (hn : mapFind s.nodes_ node = some n)
    (hsc : mapFind s.nodes_ "Scene" = some sc)
    (hnd : s.nodeHeap[sc]? = some nd) :
    ∃ s', s.setSceneNode node = some s' ∧ s'.getCurrentSceneNode = s.getCurrentSceneNode := by
  have hrun : s.setSceneNode node
      = some (update { s with nodeHeap := s.nodeHeap.set sc { nd with children := [] ++ [n] } }) := by
    simp only [setSceneNode, hn, hsc, hnd]
  exact ⟨_, hrun, rfl⟩

/-- Witness for the amended C10 on the constructed scene. -/
theorem setSceneNode_keeps_currentSceneNode_witness :
    mapFind scene0.nodes_ "Duck" = some 1 ∧
    ∃ s', scene0.setSceneNode "Duck" = some s' ∧
      s'.getCurrentSceneNode = scene0.getCurrentSceneNode :=
  ⟨by decide,
   setSceneNode_keeps_currentSceneNode scene0 "Duck" 1 8 ⟨none, QMatrix4x4.identity, []⟩
    (by decide) (by decide) rfl⟩

/-- Counterexample to C10: "Duck" and "Cube" name nodes of the constructed scene;
after `setSceneNode "Duck"` the current scene node is not "Duck", and it is the
same as after `setSceneNode "Cube"`. -/
theorem setSceneNode_currentSceneNode_counterexample :
    mapFind scene0.nodes_ "Duck" = some 1 ∧ mapFind scene0.nodes_ "Cube" = some 0 ∧
    ∃ s1 s2, scene0.setSceneNode "Duck" = some s1 ∧ scene0.setSceneNode "Cube" = some s2 ∧
      s1.getCurrentSceneNode ≠ "Duck" ∧ s1.getCurrentSceneNode = s2.getCurrentSceneNode :=
  ⟨by decide, by decide, _, _, rfl, rfl, by decide, by decide⟩

/-- Counterexample to C5: in the constructed scene, which has one light,
`setLightIntensity 1 v` returns without a redraw request, while
`setLightIntensity 0 v` makes one. -/
theorem setLightIntensity_no_redraw_counterexample :
    scene0.lightNodes_.length = 1 ∧
    (scene0.setLightIntensity 1 (1 / 2)).map (fun s => s.updateRequests)
      = some scene0.updateRequests ∧
    (scene0.setLightIntensity 0 (1 / 2)).map (fun s => s.updateRequests)
      = some (scene0.updateRequests + 1) := by
  decide

/-- C5 as the code has it: `setLightIntensity(i, v)` with `i` not below the
number of lights returns at its guard with the scene as it was, so without a
redraw request; with `i` below it, and for each of the other ten setters, a call
that returns has made exactly one redraw request, whether it wrote a material or
not. -/
theorem setters_redraw (s : Scene) :
    (∀ i v, s.lightNodes_.length ≤ i → s.setLightIntensity i v = some s) ∧
    (∀ i v s', i < s.lightNodes_.length → s.setLightIntensity i v = some s' →
      s'.updateRequests = s.updateRequests + 1) ∧
    (∀ v s', s.setThreshold v = some s' → s'.updateRequests = s.updateRequests + 1) ∧
    (∀ v s', s.setAmountOfDiscretiz v = some s' → s'.updateRequests = s.updateRequests + 1) ∧
    (∀ v s', s.enableSilhoutte v = some s' → s'.updateRequests = s.updateRequests + 1) ∧
    (∀ v s', s.setRadius v = some s' → s'.updateRequests = s.updateRequests + 1) ∧
    (∀ v s', s.setDensity v = some s' → s'.updateRequests = s.updateRequests + 1) ∧
    (∀ v s', s.revertPoint v = some s' → s'.updateRequests = s.updateRequests + 1) ∧
    (∀ v s', s.setRedIntensity v = some s' → s'.updateRequests = s.updateRequests + 1) ∧
    (∀ v s', s.setGreenIntensity v = some s' → s'.updateRequests = s.updateRequests + 1) ∧
    (∀ v s', s.setBlueIntensity v = some s' → s'.updateRequests = s.updateRequests + 1) ∧
    (∀ v s', s.setShader v = some s' → s'.updateRequests = s.updateRequests + 1) := by
  refine ⟨?_, ?_, ?_, ?_, ?_, ?_, ?_, ?_, ?_, ?_, ?_, ?_⟩
  · intro i v h
    simp only [setLightIntensity, ge_iff_le, h, if_true]
  · intro i v s' hi h
    simp only [setLightIntensity, ge_iff_le, Nat.not_le.mpr hi, if_false] at h
    exact map_update_redraw s s' _ (fun s1 h1 => setIntensities_frame _ _ _ _ _ h1) h
  · intro v s' h
    exact routed_redraw s s' _ _ _ _ _ (fun tm s1 h1 => writeToonShader_frame _ _ _ _ h1) h
  · intro v s' h
    exact routed_redraw s s' _ _ _ _ _ (fun tm s1 h1 => writeToonShader_frame _ _ _ _ h1) h
  · intro v s' h
    exact routed_redraw s s' _ _ _ _ _ (fun tm s1 h1 => writeToonShader_frame _ _ _ _ h1) h
  · intro v s' h
    exact routed_redraw s s' _ _ _ _ _ (fun tm s1 h1 => writePointTexture_frame _ _ _ _ h1) h
  · intro v s' h
    exact routed_redraw s s' _ _ _ _ _ (fun tm s1 h1 => writePointTexture_frame _ _ _ _ h1) h
  · intro v s' h
    exact routed_redraw s s' _ _ _ _ _ (fun tm s1 h1 => writePointTexture_frame _ _ _ _ h1) h
  · intro v s' h
    exact colour_redraw s s' _ _ h
  · intro v s' h
    exact colour_redraw s s' _ _ h
  · intro v s' h
    exact colour_redraw s s' _ _ h
  · intro v s' h
    exact map_update_redraw s s' _ (fun s1 h1 => setToonFlags_frame _ _ _ _ _ h1) h

/-- Witness for the amended C5.  In `sceneToon`, which has one light, light 0 is
a light, and `setLightIntensity 0` and `setRadius` return with one redraw
request more; so does `setThreshold` in `sceneCube`.  Each of the other setters
returns in one of the two scenes. -/
theorem setters_redraw_witness :
    (0 < sceneToon.lightNodes_.length) ∧
    (sceneToon.setLightIntensity 0 (1 / 2)).isSome = true ∧
    (∀ s', sceneToon.setLightIntensity 0 (1 / 2) = some s' →
      s'.updateRequests = sceneToon.updateRequests + 1) ∧
    (sceneCube.setThreshold (1 / 2)).isSome = true ∧
    (∀ s', sceneCube.setThreshold (1 / 2) = some s' →
      s'.updateRequests = sceneCube.updateRequests + 1) ∧
    (sceneToon.setRadius (1 / 2)).isSome = true ∧
    (∀ s', sceneToon.setRadius (1 / 2) = some s' →
      s'.updateRequests = sceneToon.updateRequests + 1) ∧
    (sceneCube.setAmountOfDiscretiz 4).isSome = true ∧
    (sceneCube.enableSilhoutte true).isSome = true ∧
    (sceneToon.setDensity (1 / 2)).isSome = true ∧
    (sceneToon.revertPoint true).isSome = true ∧
    (sceneCube.setRedIntensity (1 / 2)).isSome = true ∧
    (sceneCube.setGreenIntensity (1 / 2)).isSome = true ∧
    (sceneCube.setBlueIntensity (1 / 2)).isSome = true ∧
    (sceneCube.setShader "Wire").isSome = true :=
  ⟨by decide, by decide,
   fun s' h => (setters_redraw sceneToon).2.1 0 (1 / 2) s' (by decide) h,
   by decide,
   fun s' h => (setters_redraw sceneCube).2.2.1 (1 / 2) s' h,
   by decide,
   fun s' h => (setters_redraw sceneToon).2.2.2.2.2.1 (1 / 2) s' h,
   by decide, by decide, by decide, by decide, by decide, by decide, by decide, by decide⟩

/-- Counterexample to C6: in the constructed scene the current scene node has no
mesh, and `setThreshold` does not complete. -/
theorem setThreshold_without_mesh_counterexample :
    mapFind scene0.meshes_ scene0.getCurrentSceneNode = none ∧
    scene0.setThreshold (1 / 2) = none :=
  ⟨by decide, rfl⟩

/-- C6 as the code has it: when the current scene node has no entry in the mesh
registry, none of the nine setters completes; each stops at the dereference of
the missing mesh, before any write and before the redraw request. -/
theorem setters_without_mesh (s : Scene) (h : mapFind s.meshes_ s.getCurrentSceneNode = none) :
    (∀ v, s.setThreshold v = none) ∧ (∀ v, s.setAmountOfDiscretiz v = none) ∧
    (∀ v, s.enableSilhoutte v = none) ∧ (∀ v, s.setRadius v = none) ∧
    (∀ v, s.setDensity v = none) ∧ (∀ v, s.revertPoint v = none) ∧
    (∀ v, s.setRedIntensity v = none) ∧ (∀ v, s.setGreenIntensity v = none) ∧
    (∀ v, s.setBlueIntensity v = none) := by
  have hc : s.currentMaterial = none := by simp only [currentMaterial, h]
  refine ⟨?_, ?_, ?_, ?_, ?_, ?_, ?_, ?_, ?_⟩ <;> intro v
  · simp only [setThreshold, hc]
  · simp only [setAmountOfDiscretiz, hc]
  · simp only [enableSilhoutte, hc]
  · simp only [setRadius, hc]
  · simp only [setDensity, hc]
  · simp only [revertPoint, hc]
  · simp only [setRedIntensity, hc]
  · simp only [setGreenIntensity, hc]
  · simp only [setBlueIntensity, hc]

/-- Witness for the amended C6 on the constructed scene, whose current scene
node is the empty name. -/
theorem setters_without_mesh_witness :
    mapFind scene0.meshes_ scene0.getCurrentSceneNode = none ∧
    (∀ v, scene0.setRadius v = none) :=
  ⟨by decide, (setters_without_mesh scene0 (by decide)).2.2.2.1⟩

/-- C4 at the failing input.  In `sceneToon` the mesh of the current scene node
holds the toon material (heap index 2), whose identifier is "toon" and whose
`discretize` is 0.  `mToonMaterials_["toon"]` is the material with heap index 0,
the `PhongMaterial` that `makeNodes` names `red`, which has no member
`toonShader`.  So the three toon setters write through that pointer outside the
object and do not give the mesh's material the new value.  The point setters do
the same in `scenePoint` through `mPointMaterials_["point"]`.  With an
identifier that is not the setter's variant the setter only requests a redraw:
`setRadius` in `sceneToon`, `setThreshold` in `sceneCube`. -/
theorem variant_setters_write_red :
    sceneToon.currentMaterial = some 2 ∧
    sceneToon.getAppliedShader 2 = some "toon" ∧
    ((sceneToon.materialHeap[2]?).bind (fun m => m.toon)).map
      (fun t => t.toonShader.discretize) = some 0 ∧
    mapFind sceneToon.mToonMaterials_ "toon" = some 0 ∧
    (sceneToon.materialHeap[0]?).map (fun m => (m.appliedShader, m.toon.isSome))
      = some ("phong", false) ∧
    sceneToon.setAmountOfDiscretiz 4 = none ∧
    sceneToon.setThreshold (1 / 2) = none ∧
    sceneToon.enableSilhoutte true = none ∧
    scenePoint.currentMaterial = some 3 ∧
    scenePoint.getAppliedShader 3 = some "point" ∧
    mapFind scenePoint.mPointMaterials_ "point" = some 0 ∧
    (scenePoint.materialHeap[0]?).map (fun m => (m.appliedShader, m.point.isSome))
      = some ("phong", false) ∧
    scenePoint.setRadius (1 / 2) = none ∧
    scenePoint.setDensity (1 / 2) = none ∧
    scenePoint.revertPoint true = none ∧
    sceneToon.setRadius (1 / 2) = some (update sceneToon) ∧
    sceneCube.setThreshold (1 / 2) = some (update sceneCube) :=
  ⟨by decide, by decide, by decide, by decide, by decide, rfl, rfl, rfl,
   by decide, by decide, by decide, by decide, rfl, rfl, rfl, rfl, rfl⟩

/-- C7: one frame of `draw_scene_` on a scene with `N` lights (world and camera
node present, every light below the world node, every material of
`mPhongMaterials_` with `N` light slots) returns and issues exactly `N` calls of
`World.draw`, with pass indices `0, 1, ..., N-1` in this order; the call of
pass 0 is issued with depth test enabled, depth function LESS, blending and face
culling disabled, and the call of every later pass with depth function EQUAL,
blending enabled and blend factors (ONE, ONE). -/
theorem draw_scene_passes (vp : Viewport) (s : Scene) (world cam : Nat) (camToWorld : QMatrix4x4)
    (hw : mapFind s.nodes_ "World" = some world)
    (hc : mapFind s.nodes_ "Camera" = some cam)
    (hcw : toParentTransform s world cam = some camToWorld)
    (hl : ∀ i light : Nat, s.lightNodes_[i]? = some light →
        (toParentTransform s world light).isSome)
    (hm : ∀ e ∈ s.mPhongMaterials_, ∃ len,
        (lightSlots s)[e.2]? = some len ∧ s.lightNodes_.length ≤ len) :
    ∃ s', draw_scene_ vp s = some s' ∧
      s'.drawLog = s.drawLog ++ (List.range s.lightNodes_.length).map (fun i =>
        { camera := ⟨vp.inverted camToWorld, vp.projectionMatrix⟩, lightPass := i,
          raster := if i = 0 then
              { depthTest := true, depthFunc := .LESS, blend := false,
                blendSrc := s.raster.blendSrc, blendDst := s.raster.blendDst, cullFace := false }
            else
              { depthTest := true, depthFunc := .EQUAL, blend := true,
                blendSrc := .ONE, blendDst := .ONE, cullFace := false } }) := by
  obtain ⟨h, hrun, -⟩ := lightPasses_frame ⟨vp.inverted camToWorld, vp.projectionMatrix⟩ world
    (List.range s.lightNodes_.length)
    (glDisable (glDisable (glEnable (glDepthFunc s .LESS) .DEPTH_TEST) .BLEND) .CULL_FACE)
    hw
    (by
      intro i hi
      have hlt : i < s.lightNodes_.length := List.mem_range.mp hi
      exact ⟨s.lightNodes_[i], List.getElem?_eq_getElem hlt,
        hl i _ (List.getElem?_eq_getElem hlt)⟩)
    (by
      intro e he
      obtain ⟨len, h1, h2⟩ := hm e he
      exact ⟨len, h1, fun i hi => Nat.lt_of_lt_of_le (List.mem_range.mp hi) h2⟩)
  have hds : draw_scene_ vp s
      = lightPasses ⟨vp.inverted camToWorld, vp.projectionMatrix⟩ (List.range s.lightNodes_.length)
          (glDisable (glDisable (glEnable (glDepthFunc s .LESS) .DEPTH_TEST) .BLEND) .CULL_FACE) := by
    simp only [draw_scene_, hw, hc, hcw]
    rfl
  rw [hds, hrun]
  refine ⟨_, rfl, ?_⟩
  cases hN : s.lightNodes_.length with
  | zero => simp [glDepthFunc, glEnable, glDisable]
  | succ n =>
    simp [List.range_succ_eq_map, blendSettings, glDepthFunc, glBlendFunc, glEnable, glDisable,
      glSet, Function.comp_def]

/-- Witness for C7 on the constructed scene, which has one light. -/
theorem draw_scene_passes_witness :
    mapFind scene0.nodes_ "World" = some 7 ∧ mapFind scene0.nodes_ "Camera" = some 9 ∧
    ∃ s', draw_scene_ vp0 scene0 = some s' ∧
      s'.drawLog = scene0.drawLog ++ (List.range scene0.lightNodes_.length).map (fun i =>
        { camera := ⟨vp0.inverted (QMatrix4x4.identity.mul QMatrix4x4.identity),
            vp0.projectionMatrix⟩, lightPass := i,
          raster := if i = 0 then
              { depthTest := true, depthFunc := .LESS, blend := false,
                blendSrc := scene0.raster.blendSrc, blendDst := scene0.raster.blendDst,
                cullFace := false }
            else
              { depthTest := true, depthFunc := .EQUAL, blend := true,
                blendSrc := .ONE, blendDst := .ONE, cullFace := false } }) :=
  ⟨by decide, by decide,
   draw_scene_passes vp0 scene0 7 9 (QMatrix4x4.identity.mul QMatrix4x4.identity)
    (by decide) (by decide) rfl
    (by
      intro i light h
      have h0 : scene0.lightNodes_ = [10] := by decide
      rw [h0] at h
      cases i with
      | zero =>
        simp at h
        subst h
        decide
      | succ k => simp at h)
    (by
      intro e he
      have h0 : scene0.mPhongMaterials_ = [("goblin_Material", 4), ("phong", 0), ("red", 0)] := by
        decide
      rw [h0] at he
      simp only [List.mem_cons, List.mem_singleton, List.not_mem_nil, or_false] at he
      rcases he with rfl | rfl | rfl <;> exact ⟨1, by decide, by decide⟩)⟩

/-- Counterexample to C2: in the constructed scene the first mesh of the
registry ("Cessna") holds the material with heap index 0 (`red`) and the mesh
"Goblin" (heap index 2) holds the material with heap index 4; the call
`replaceMaterialAndDrawScene(camera0, red)` returns and "Goblin" still holds
material 4, not `red`. -/
theorem replaceMaterial_counterexample :
    mapFind scene0.meshes_ "Goblin" = some 2 ∧
    (scene0.meshes_.head?).bind (fun e => meshMaterial scene0 e.2) = some 0 ∧
    ((scene0.replaceMaterialAndDrawScene camera0 0).map (fun s => s.meshes_)) = some scene0.meshes_ ∧
    ((scene0.replaceMaterialAndDrawScene camera0 0).bind (fun s => meshMaterial s 2)) = some 4 := by
  decide

/-- C2 as the code has it.  Let every pointer of the mesh registry and
`material` be live, and let the light loop be able to run (world node present,
every light below it, `material_` with a slot for every light).  Then
`replaceMaterialAndDrawScene` returns and leaves the registry as it was; if
`material` is not the material of the first mesh of the registry, every
registered mesh holds `material` afterwards; if it is, no mesh is changed. -/
theorem replaceMaterial_guarded (s : Scene) (camera : Camera) (material : Nat)
    (k : String) (first : Nat) (rest : List (String × Nat)) (firstMesh : Mesh)
    (world mat len : Nat)
    (hreg : s.meshes_ = (k, first) :: rest)
    (hfirst : s.meshHeap[first]? = some firstMesh)
    (hlive : ∀ e ∈ s.meshes_, e.2 < s.meshHeap.length)
    (hmaterial : material < s.materialHeap.length)
    (hw : mapFind s.nodes_ "World" = some world)
    (hl : ∀ i light : Nat, s.lightNodes_[i]? = some light →
        (toParentTransform s world light).isSome)
    (hmat : s.material_ = some mat)
    (hlen : (lightSlots s)[mat]? = some len)
    (hslots : s.lightNodes_.length ≤ len) :
    ∃ s', s.replaceMaterialAndDrawScene camera material = some s' ∧
      s'.meshes_ = s.meshes_ ∧
      (material ≠ firstMesh.material →
        ∀ e ∈ s'.meshes_, meshMaterial s' e.2 = some material) ∧
      (material = firstMesh.material → s'.meshHeap = s.meshHeap) := by
  have hloop : ∀ s1 : Scene, s1.nodes_ = s.nodes_ → s1.nodeHeap = s.nodeHeap →
      s1.lightNodes_ = s.lightNodes_ → s1.material_ = s.material_ →
      s1.materialHeap = s.materialHeap →
      ∃ h lg r, lightPassesMaterial camera (List.range s1.lightNodes_.length) s1
        = some { s1 with materialHeap := h, drawLog := lg, raster := r } := by
    intro s1 h1 h2 h3 h4 h5
    apply lightPassesMaterial_frame camera world mat len _ s1
    · rw [h1]; exact hw
    · intro i hi
      rw [h3] at hi ⊢
      have hlt : i < s.lightNodes_.length := List.mem_range.mp hi
      refine ⟨s.lightNodes_[i], List.getElem?_eq_getElem hlt, ?_⟩
      have := hl i _ (List.getElem?_eq_getElem hlt)
      simpa only [toParentTransform, h2] using this
    · rw [h4]; exact hmat
    · simpa only [lightSlots, h5] using hlen
    · intro i hi
      rw [h3] at hi
      exact Nat.lt_of_lt_of_le (List.mem_range.mp hi) hslots
  by_cases hne : material = firstMesh.material
  · obtain ⟨h, lg, r, hrun⟩ := hloop s rfl rfl rfl rfl rfl
    refine ⟨{ s with materialHeap := h, drawLog := lg, raster := r }, ?_, rfl,
      fun h2 => absurd hne h2, fun _ => rfl⟩
    rw [← hrun]
    simp only [replaceMaterialAndDrawScene, hreg, hfirst, if_neg (not_not.mpr hne)]
  · obtain ⟨m0, hm0⟩ : ∃ m0, s.materialHeap[material]? = some m0 :=
      ⟨_, List.getElem?_eq_getElem hmaterial⟩
    obtain ⟨mh, hrep, -, hall, -⟩ := replaceMaterials_frame material s.meshes_ s hlive
    obtain ⟨h, lg, r, hrun⟩ := hloop { s with meshHeap := mh } rfl rfl rfl rfl rfl
    refine ⟨{ s with meshHeap := mh, materialHeap := h, drawLog := lg, raster := r }, ?_, rfl,
      fun _ => ?_, fun h2 => absurd h2 hne⟩
    · have hstart : s.replaceMaterialAndDrawScene camera material
          = (replaceMaterials material s.meshes_ s).bind
              (fun s1 => lightPassesMaterial camera (List.range s1.lightNodes_.length) s1) := by
        rw [replaceMaterialAndDrawScene]
        generalize hrm : replaceMaterials material s.meshes_ s = res
        simp only [hreg, hfirst, if_pos hne, hm0]
        cases res <;> rfl
      rw [hstart, hrep]
      exact hrun
    · intro e he
      exact hall e he

/-- Witness for the amended C2 on the constructed scene and the toon material
(heap index 2), which is not the material of the first mesh. -/
theorem replaceMaterial_guarded_witness :
    scene0.meshes_.head? = some ("Cessna", 5) ∧ meshMaterial scene0 5 = some 0 ∧
    ∃ s', scene0.replaceMaterialAndDrawScene camera0 2 = some s' ∧
      s'.meshes_ = scene0.meshes_ ∧
      ((2 : Nat) ≠ 0 → ∀ e ∈ s'.meshes_, meshMaterial s' e.2 = some 2) ∧
      ((2 : Nat) = 0 → s'.meshHeap = scene0.meshHeap) :=
  ⟨by decide, by decide,
   replaceMaterial_guarded scene0 camera0 2 "Cessna" 5
    [("Cube", 6), ("Duck", 0), ("Goblin", 2), ("Teapot", 1), ("Torus", 4), ("Yoda", 3)]
    ⟨":/models/cessna.obj", 2, 0⟩ 7 0 1
    (by decide) rfl (by decide) (by decide) (by decide)
    (by
      intro i light h
      have h0 : scene0.lightNodes_ = [10] := by decide
      rw [h0] at h
      cases i with
      | zero =>
        simp at h
        subst h
        decide
      | succ k => simp at h)
    (by decide) (by decide) (by decide)⟩

/-! ### Transforms -/

theorem map_origin_mul_translate (a b : QMatrix4x4) (v : QVector3D) :
    (a.mul (b.mul (QMatrix4x4.identity.translate v))).map ⟨0, 0, 0⟩ = (a.mul b).map v := by
  have key : ∀ r : Fin 4, (a.mul (b.mul (QMatrix4x4.identity.translate v))).m r 3
      = v.x * (a.mul b).m r 0 + v.y * (a.mul b).m r 1 + v.z * (a.mul b).m r 2
        + (a.mul b).m r 3 := by
    intro r
    simp [QMatrix4x4.mul, QMatrix4x4.translate, QMatrix4x4.translation, QMatrix4x4.identity]
    ring
  simp only [QMatrix4x4.map, zero_mul, zero_add, key]

/-- C8: let the tree have the shape that `makeScene` builds: the children of
the world node are the "Scene" node and the camera node, in this order, the
"Scene" node has no child, the only child of the camera node is `Light0`, the
local transformation of `Light0` is the translation by (0,1,0), and
`lightNodes_` is `[Light0]`.  Then for every local transformation of the camera
node (and of the world node) the position that the light loop resolves for
light 0, `World.toParentTransform(Light0)` applied to the origin, is
`World.toParentTransform(Camera)` applied to the point (0,1,0). -/
theorem light0_position_follows_camera (s : Scene) (world sc cam light0 : Nat)
    (wn scn cn ln : Node)
    (hw : mapFind s.nodes_ "World" = some world)
    (hwn : s.nodeHeap[world]? = some wn) (hwc : wn.children = [sc, cam])
    (hscn : s.nodeHeap[sc]? = some scn) (hscc : scn.children = [])
    (hcn : s.nodeHeap[cam]? = some cn) (hcc : cn.children = [light0])
    (hln : s.nodeHeap[light0]? = some ln)
    (hlt : ln.transformation = QMatrix4x4.identity.translate ⟨0, 1, 0⟩)
    (hlights : s.lightNodes_ = [light0])
    (hd1 : world ≠ cam) (hd2 : world ≠ light0) (hd3 : sc ≠ cam) (hd4 : sc ≠ light0)
    (hd5 : cam ≠ light0) :
    ∃ camToWorld lightToWorld,
      toParentTransform s world cam = some camToWorld ∧
      toParentTransform s world light0 = some lightToWorld ∧
      lightPosition s 0 = some (lightToWorld.map ⟨0, 0, 0⟩) ∧
      lightToWorld.map ⟨0, 0, 0⟩ = camToWorld.map ⟨0, 1, 0⟩ := by
  have b1 : world < s.nodeHeap.length := (List.getElem?_eq_some.mp hwn).1
  have b2 : cam < s.nodeHeap.length := (List.getElem?_eq_some.mp hcn).1
  have b3 : light0 < s.nodeHeap.length := (List.getElem?_eq_some.mp hln).1
  obtain ⟨k, hk⟩ : ∃ k, s.nodeHeap.length = k + 3 := ⟨s.nodeHeap.length - 3, by omega⟩
  have hcam : toParentTransform s world cam
      = some (wn.transformation.mul cn.transformation) := by
    simp [toParentTransform, hk, pathTransform, hwn, hwc, hscn, hscc, hcn, hd1, hd3]
  have hlight : toParentTransform s world light0
      = some (wn.transformation.mul
          (cn.transformation.mul (QMatrix4x4.identity.translate ⟨0, 1, 0⟩))) := by
    simp [toParentTransform, hk, pathTransform, hwn, hwc, hscn, hscc, hcn, hcc, hln, hlt,
      hd2, hd4, hd5]
  refine ⟨_, _, hcam, hlight, ?_, map_origin_mul_translate _ _ _⟩
  have h0 : ([light0] : List Nat)[0]? = some light0 := rfl
  simp only [lightPosition, hw, hlights, h0, hlight, Option.map_some']

/-- Witness for C8 on `sceneMoved`. -/
theorem light0_position_follows_camera_witness :
    mapFind sceneMoved.nodes_ "Camera" = some 9 ∧
    mapFind sceneMoved.nodes_ "Light0" = some 10 ∧
    ∃ camToWorld lightToWorld,
      toParentTransform sceneMoved 7 9 = some camToWorld ∧
      toParentTransform sceneMoved 7 10 = some lightToWorld ∧
      lightPosition sceneMoved 0 = some (lightToWorld.map ⟨0, 0, 0⟩) ∧
      lightToWorld.map ⟨0, 0, 0⟩ = camToWorld.map ⟨0, 1, 0⟩ :=
  ⟨by decide, by decide,
   light0_position_follows_camera sceneMoved 7 8 9 10
    ⟨none, QMatrix4x4.identity, [8, 9]⟩ ⟨none, QMatrix4x4.identity, []⟩
    ⟨none, QMatrix4x4.identity.translate ⟨0, 0, 3⟩, [10]⟩
    ⟨none, QMatrix4x4.identity.translate ⟨0, 1, 0⟩, []⟩
    (by decide) rfl rfl rfl rfl rfl rfl rfl rfl (by decide)
    (by decide) (by decide) (by decide) (by decide) (by decide)⟩

/-- C3 at the failing input: the constructed scene has one light, whose world
position is (0,1,0), and `materials_` holds the materials with heap indices 1, 2
and 3.  After one frame of `draw_scene_` the material `red` (heap index 0,
registered in `mPhongMaterials_`) has that position in slot 0 of its light
array, while every material of `materials_` still has the position (0,0,0) it
was constructed with. -/
theorem draw_scene_skips_materials_list :
    scene0.lightNodes_.length = 1 ∧ scene0.materials_ = [1, 2, 3] ∧
    mapFind scene0.mPhongMaterials_ "red" = some 0 ∧
    lightPosition scene0 0 = some ⟨0, 1, 0⟩ ∧
    ∃ s', draw_scene_ vp0 scene0 = some s' ∧
      ((s'.materialHeap[0]?).bind (fun m => m.lights[0]?)).map (fun l => l.position_WC)
        = lightPosition scene0 0 ∧
      ∀ mat ∈ s'.materials_,
        ((s'.materialHeap[mat]?).bind (fun m => m.lights[0]?)).map (fun l => l.position_WC)
          = some ⟨0, 0, 0⟩ := by
  have hpos : lightPosition scene0 0 = some ⟨0, 1, 0⟩ := by
    have h : lightPosition scene0 0 = some ((QMatrix4x4.identity.mul (QMatrix4x4.identity.mul
        (QMatrix4x4.identity.translate ⟨0, 1, 0⟩))).map ⟨0, 0, 0⟩) := rfl
    rw [h, map_origin_mul_translate]
    simp [QMatrix4x4.map, QMatrix4x4.mul, QMatrix4x4.identity]
  refine ⟨by decide, by decide, by decide, hpos, (draw_scene_ vp0 scene0).get (by decide),
    by simp, rfl, ?_⟩
  intro mat hmat
  have hm : ((draw_scene_ vp0 scene0).get (by decide)).materials_ = [1, 2, 3] := by decide
  rw [hm] at hmat
  simp only [List.mem_cons, List.mem_singleton, List.not_mem_nil, or_false] at hmat
  rcases hmat with rfl | rfl | rfl <;> rfl

/-! ### The node graph -/

theorem sceneShapes_tree : ∀ shape ∈ sceneShapes, treeFrom shape 7 = true := by decide

theorem sceneShapes_parents : ∀ shape ∈ sceneShapes, shape.flatten.Nodup := by decide

theorem sceneShapes_closed :
    ∀ shape ∈ sceneShapes, ∀ i ∈ List.range 7, shape.set 8 [i] ∈ sceneShapes := by decide

theorem sceneShapes_length : ∀ shape ∈ sceneShapes, shape.length = 11 := by decide

theorem meshNodeNames_find :
    ∀ node ∈ meshNodeNames, ∃ i, mapFind nodes0 node = some i ∧ i ∈ List.range 7 := by
  intro node h
  simp only [meshNodeNames, List.mem_cons, List.mem_singleton, List.not_mem_nil, or_false] at h
  rcases h with rfl | rfl | rfl | rfl | rfl | rfl | rfl
  · exact ⟨0, by decide, by decide⟩
  · exact ⟨1, by decide, by decide⟩
  · exact ⟨2, by decide, by decide⟩
  · exact ⟨3, by decide, by decide⟩
  · exact ⟨4, by decide, by decide⟩
  · exact ⟨5, by decide, by decide⟩
  · exact ⟨6, by decide, by decide⟩

theorem setSceneNode_shape (s : Scene) (node : String)
    (hn : s.nodes_ = nodes0) (hk : s.nodeHeap.map Node.children ∈ sceneShapes)
    (hnode : node ∈ meshNodeNames) :
    ∃ s', s.setSceneNode node = some s' ∧ s'.nodes_ = nodes0 ∧
      s'.nodeHeap.map Node.children ∈ sceneShapes := by
  obtain ⟨i, hi, hrange⟩ := meshNodeNames_find node hnode
  have hlen : s.nodeHeap.length = 11 := by
    simpa using sceneShapes_length _ hk
  obtain ⟨nd, hnd⟩ : ∃ nd, s.nodeHeap[8]? = some nd :=
    ⟨_, List.getElem?_eq_getElem (by omega)⟩
  have hsc : mapFind s.nodes_ "Scene" = some 8 := by rw [hn]; decide
  have hrun : s.setSceneNode node
      = some (update { s with nodeHeap := s.nodeHeap.set 8 { nd with children := [] ++ [i] } }) := by
    simp only [setSceneNode, hn, hi, hnd]
    rw [← hn, hsc]
    simp only [hnd]
  refine ⟨_, hrun, hn, ?_⟩
  have := sceneShapes_closed _ hk i hrange
  simpa [update, List.map_set] using this

theorem setSceneNodes_shape (names : List String) :
    ∀ s : Scene, s.nodes_ = nodes0 → s.nodeHeap.map Node.children ∈ sceneShapes →
      (∀ node ∈ names, node ∈ meshNodeNames) →
      ∃ s', setSceneNodes names s = some s' ∧ s'.nodes_ = nodes0 ∧
        s'.nodeHeap.map Node.children ∈ sceneShapes := by
  induction names with
  | nil => intro s hn hk _; exact ⟨s, rfl, hn, hk⟩
  | cons node rest ih =>
    intro s hn hk hnames
    obtain ⟨s1, hrun1, hn1, hk1⟩ :=
      setSceneNode_shape s node hn hk (hnames node (List.mem_cons_self _ _))
    obtain ⟨s2, hrun2, hn2, hk2⟩ :=
      ih s1 hn1 hk1 (fun n hm => hnames n (List.mem_cons_of_mem _ hm))
    exact ⟨s2, by simp only [setSceneNodes, hrun1, hrun2], hn2, hk2⟩

/-- Counterexample to C9: the constructed scene is a tree; "Scene" names a node
of it, and after `setSceneNode "Scene"` the "Scene" node (heap index 8) is its
own child and the graph reachable from "World" is not a tree.  The same happens
for "World", "Camera" and "Light0". -/
theorem setSceneNode_tree_counterexample :
    isTree scene0 = true ∧
    mapFind scene0.nodes_ "Scene" = some 8 ∧
    ((scene0.setSceneNode "Scene").bind (fun s => s.nodeHeap[8]?)).map Node.children
      = some [8] ∧
    (scene0.setSceneNode "Scene").map isTree = some false ∧
    (scene0.setSceneNode "World").map isTree = some false ∧
    (scene0.setSceneNode "Camera").map isTree = some false ∧
    (scene0.setSceneNode "Light0").map isTree = some false := by
  decide

/-- C9 as the code has it: in a scene with the name table and the child lists
that `makeNodes` and `makeScene` build, the node graph reachable from "World" is
a tree, and it is one after every sequence of calls of `setSceneNode` whose
arguments name mesh nodes (Cube, Duck, Teapot, Goblin, Yoda, Torus, Cessna);
every call of the sequence returns, and afterwards no node occurs twice among
the children of all nodes, so none is a child of two parents. -/
theorem setSceneNodes_tree (s0 : Scene) (names : List String)
    (hn0 : s0.nodes_ = nodes0) (hk0 : s0.nodeHeap.map Node.children = kids0)
    (hnames : ∀ node ∈ names, node ∈ meshNodeNames) :
    isTree s0 = true ∧
    ∃ s', setSceneNodes names s0 = some s' ∧ isTree s' = true ∧
      (s'.nodeHeap.map Node.children).flatten.Nodup := by
  have hmem0 : s0.nodeHeap.map Node.children ∈ sceneShapes := by
    rw [hk0]; decide
  have htree : ∀ s : Scene, s.nodes_ = nodes0 → s.nodeHeap.map Node.children ∈ sceneShapes →
      isTree s = true := by
    intro s hn hk
    have hw : mapFind s.nodes_ "World" = some 7 := by rw [hn]; decide
    simp only [isTree, hw]
    exact sceneShapes_tree _ hk
  obtain ⟨s', hrun, hn, hk⟩ := setSceneNodes_shape names s0 hn0 hmem0 hnames
  exact ⟨htree s0 hn0 hmem0, s', hrun, htree s' hn hk, sceneShapes_parents _ hk⟩

/-- Witness for the amended C9 on the constructed scene: the duck, then the
cube, then the duck again. -/
theorem setSceneNodes_tree_witness :
    scene0.nodes_ = nodes0 ∧ scene0.nodeHeap.map Node.children = kids0 ∧
    isTree scene0 = true ∧
    ∃ s', setSceneNodes ["Duck", "Cube", "Duck"] scene0 = some s' ∧ isTree s' = true ∧
      (s'.nodeHeap.map Node.children).flatten.Nodup :=
  ⟨by decide, by decide,
   setSceneNodes_tree scene0 ["Duck", "Cube", "Duck"] (by decide) (by decide) (by decide)⟩

end RTR
